import Mathlib

/-!
Verification of the FoodFacts core logic: the health-score estimator
(`getHealthScore` from the product page, with the score-band helpers
`getHealthScoreClass` / `getHealthScoreText` from `static/js/main.js` and the
grade-color table `getGradeColor`), and the barcode checksum validator
(`validateBarcode` / `validateEAN13` / `validateUPC` from
`static/js/scanner.js`).  Nutrient quantities are modelled as rationals;
optional record fields are `Option ℚ` (JavaScript `undefined` compares false
against any number, which `jsGT` reproduces).
-/

/-- A nutrient-facts record: every per-100g field is independently optional. -/
structure NutrientFacts where
  energy_100g : Option ℚ := none
  fat_100g : Option ℚ := none
  saturated_fat_100g : Option ℚ := none
  carbohydrates_100g : Option ℚ := none
  sugars_100g : Option ℚ := none
  fiber_100g : Option ℚ := none
  proteins_100g : Option ℚ := none
  salt_100g : Option ℚ := none
  sodium_100g : Option ℚ := none
deriving Repr, DecidableEq

/-- JavaScript comparison `v > t` where `v` may be `undefined`:
`undefined > t` evaluates to `false`, a present number compares numerically. -/
def jsGT (v : Option ℚ) (t : ℚ) : Bool :=
  match v with
  | none => false
  | some x => decide (t < x)

/-- `getHealthScore` from `app/product/[barcode]/page.tsx` (README lines
465–480): start at 100, apply the fixed threshold deductions and bonuses in
order, clamp to [0,100]. -/
def getHealthScore (nutriments : NutrientFacts) : ℤ :=
  let score : ℤ := 100
  let score := if jsGT nutriments.fat_100g 20 then score - 15 else score
  let score := if jsGT nutriments.saturated_fat_100g 5 then score - 10 else score
  let score := if jsGT nutriments.sugars_100g 15 then score - 20 else score
  let score := if jsGT nutriments.salt_100g (3/2) then score - 15 else score
  let score := if jsGT nutriments.sodium_100g 600 then score - 10 else score
  let score := if jsGT nutriments.fiber_100g 3 then score + 10 else score
  let score := if jsGT nutriments.proteins_100g 10 then score + 5 else score
  max 0 (min 100 score)

/-- The weight a single optional nutrient field contributes by the spec's
wording: `w` when the field is present and strictly above the threshold `t`,
and 0 otherwise (in particular when absent). -/
def specTerm (v : Option ℚ) (t : ℚ) (w : ℤ) : ℤ :=
  match v with
  | none => 0
  | some x => if t < x then w else 0

/-- The score formula stated by the spec: 100, minus 15 if fat is present and
> 20, minus 10 if saturated fat is present and > 5, minus 20 if sugars present
and > 15, minus 15 if salt present and > 1.5, minus 10 if sodium present and
> 600, plus 10 if fiber present and > 3, plus 5 if proteins present and > 10,
clamped to [0,100].  To be compared against `getHealthScore`. -/
def scoreFormula (n : NutrientFacts) : ℤ :=
  max 0 (min 100
    (100 - specTerm n.fat_100g 20 15 - specTerm n.saturated_fat_100g 5 10
      - specTerm n.sugars_100g 15 20 - specTerm n.salt_100g (3/2) 15
      - specTerm n.sodium_100g 600 10
      + specTerm n.fiber_100g 3 10 + specTerm n.proteins_100g 10 5))

lemma specTerm_eq_if (v : Option ℚ) (t : ℚ) (w : ℤ) :
    specTerm v t w = if jsGT v t then w else 0 := by
  cases v <;> simp [specTerm, jsGT]

lemma if_sub_eq (c : Bool) (a k : ℤ) :
    (if c then a - k else a) = a - (if c then k else 0) := by
  cases c <;> simp

lemma if_add_eq (c : Bool) (a k : ℤ) :
    (if c then a + k else a) = a + (if c then k else 0) := by
  cases c <;> simp

lemma getHealthScore_eq_formula (n : NutrientFacts) :
    getHealthScore n = scoreFormula n := by
  unfold getHealthScore scoreFormula
  simp only [if_sub_eq, if_add_eq, specTerm_eq_if]

lemma getHealthScore_bounds (n : NutrientFacts) :
    0 ≤ getHealthScore n ∧ getHealthScore n ≤ 100 := by
  rw [getHealthScore_eq_formula]
  unfold scoreFormula
  constructor <;> omega

/-- Value of a decimal digit character, as `Number.parseInt` produces on the
single digit characters the scanner feeds it. -/
def digitVal (c : Char) : ℕ := c.toNat - 48

/-- Normalization step of `validateBarcode`: strip every character that is not
a decimal digit (JS `barcode.replace(/\D/g, "")`). -/
def normalizeBarcode (s : String) : String :=
  String.mk (s.toList.filter Char.isDigit)

/-- `validateEAN13` from `static/js/scanner.js`: require length 13, weight the
first 12 digits alternately by 1 (even 0-based index) and 3 (odd index), and
compare `(10 - sum % 10) % 10` with the digit at index 12. -/
def validateEAN13 (barcode : String) : Bool :=
  if barcode.length ≠ 13 then false
  else
    let sum := (List.range 12).foldl
      (fun acc i => acc + (if i % 2 = 0 then digitVal (barcode.toList.getD i '0')
        else digitVal (barcode.toList.getD i '0') * 3)) 0
    ((10 - sum % 10) % 10 == digitVal (barcode.toList.getD 12 '0'))

/-- `validateUPC` from `static/js/scanner.js`: require length 12, weight the
first 11 digits alternately by 3 (even index) and 1 (odd index), and compare
`(10 - sum % 10) % 10` with the digit at index 11. -/
def validateUPC (barcode : String) : Bool :=
  if barcode.length ≠ 12 then false
  else
    let sum := (List.range 11).foldl
      (fun acc i => acc + (if i % 2 = 0 then digitVal (barcode.toList.getD i '0') * 3
        else digitVal (barcode.toList.getD i '0'))) 0
    ((10 - sum % 10) % 10 == digitVal (barcode.toList.getD 11 '0'))

/-- `validateBarcode` from `static/js/scanner.js`: strip non-digits, reject
lengths outside [8,14], dispatch to the EAN-13 or UPC-A checksum for lengths
13 and 12, and otherwise accept iff the cleaned string matches `/^\d+$/`. -/
def validateBarcode (barcode : String) : Bool :=
  let cleaned := normalizeBarcode barcode
  if cleaned.length < 8 ∨ 14 < cleaned.length then false
  else if cleaned.length = 13 then validateEAN13 cleaned
  else if cleaned.length = 12 then validateUPC cleaned
  else decide (cleaned.toList ≠ []) && cleaned.toList.all Char.isDigit

/-- Digit values of the normalized barcode, for stating the checksum claims. -/
def barcodeDigits (s : String) : List ℕ :=
  (normalizeBarcode s).toList.map digitVal

/-- The EAN-13 weighted sum as the spec words it: over the first 12 digits,
weight 1 at even 0-based indices and 3 at odd indices. -/
def ean13SpecSum (d : List ℕ) : ℕ :=
  ((List.range 12).map (fun i => if i % 2 = 0 then d.getD i 0 else 3 * d.getD i 0)).sum

/-- The UPC-A weighted sum as the spec words it: over the first 11 digits,
weight 3 at even 0-based indices and 1 at odd indices. -/
def upcSpecSum (d : List ℕ) : ℕ :=
  ((List.range 11).map (fun i => if i % 2 = 0 then 3 * d.getD i 0 else d.getD i 0)).sum

lemma getD_map_digitVal (l : List Char) (i : ℕ) :
    (l.map digitVal).getD i 0 = digitVal (l.getD i '0') := by
  induction l generalizing i with
  | nil => simp [List.getD, digitVal]
  | cons c t ih =>
    cases i with
    | zero => simp [List.getD]
    | succ j => simpa [List.getD] using ih j

lemma ean13_fold_spec (l : List Char) :
    (List.range 12).foldl
      (fun acc i => acc + (if i % 2 = 0 then digitVal (l.getD i '0')
        else digitVal (l.getD i '0') * 3)) 0
      = ean13SpecSum (l.map digitVal) := by
  have hr : List.range 12 = [0, 1, 2, 3, 4, 5, 6, 7, 8, 9, 10, 11] := rfl
  simp only [ean13SpecSum, hr, List.foldl, List.map, List.sum_cons, List.sum_nil,
    getD_map_digitVal]
  norm_num
  ring

lemma upc_fold_spec (l : List Char) :
    (List.range 11).foldl
      (fun acc i => acc + (if i % 2 = 0 then digitVal (l.getD i '0') * 3
        else digitVal (l.getD i '0'))) 0
      = upcSpecSum (l.map digitVal) := by
  have hr : List.range 11 = [0, 1, 2, 3, 4, 5, 6, 7, 8, 9, 10] := rfl
  simp only [upcSpecSum, hr, List.foldl, List.map, List.sum_cons, List.sum_nil,
    getD_map_digitVal]
  norm_num
  ring

lemma normalizeBarcode_idem (s : String) :
    normalizeBarcode (normalizeBarcode s) = normalizeBarcode s := by
  unfold normalizeBarcode
  congr 1
  show (s.toList.filter Char.isDigit).filter Char.isDigit = s.toList.filter Char.isDigit
  simp [List.filter_filter]

/-- `getHealthScoreClass` from `static/js/main.js`: CSS class by fixed
thresholds on the score. -/
def getHealthScoreClass (score : ℚ) : String :=
  if 80 ≤ score then "health-score-excellent"
  else if 60 ≤ score then "health-score-good"
  else if 40 ≤ score then "health-score-fair"
  else "health-score-poor"

/-- `getHealthScoreText` from `static/js/main.js`: band label by the same
fixed thresholds. -/
def getHealthScoreText (score : ℚ) : String :=
  if 80 ≤ score then "Excellent"
  else if 60 ≤ score then "Good"
  else if 40 ≤ score then "Fair"
  else "Poor"

/-- `getGradeColor` (README, product list page): fixed switch table from the
letter grade to a color class, with a gray default. -/
def getGradeColor (grade : String) : String :=
  if grade = "A" then "bg-green-500"
  else if grade = "B" then "bg-lime-500"
  else if grade = "C" then "bg-yellow-500"
  else if grade = "D" then "bg-orange-500"
  else if grade = "E" then "bg-red-500"
  else "bg-gray-500"

/-- The record with every nutrient field absent. -/
def emptyFacts : NutrientFacts := {}

/-- C1: the health score equals the clamp to [0,100] of 100 minus the spec's
threshold penalties plus its bonuses; the record with fat 25, sugars 20 and
fiber 5 scores exactly 75; and the result always lies in [0,100]. -/
theorem getHealthScore_matches_spec_formula :
    (∀ n : NutrientFacts, getHealthScore n = scoreFormula n)
    ∧ getHealthScore
        { fat_100g := some 25, sugars_100g := some 20, fiber_100g := some 5 } = 75
    ∧ ∀ n : NutrientFacts, 0 ≤ getHealthScore n ∧ getHealthScore n ≤ 100 :=
  ⟨getHealthScore_eq_formula, by decide, getHealthScore_bounds⟩

/-- C5: the all-fields-absent record scores exactly 100, the score always
equals the clamped spec formula in which every absent field contributes 0,
and the output is always an integer in [0,100]. -/
theorem getHealthScore_all_absent :
    getHealthScore emptyFacts = 100
    ∧ (∀ n : NutrientFacts, getHealthScore n = scoreFormula n)
    ∧ ∀ n : NutrientFacts, 0 ≤ getHealthScore n ∧ getHealthScore n ≤ 100 :=
  ⟨by decide, getHealthScore_eq_formula, getHealthScore_bounds⟩

/-- C10: the score ignores the energy and carbohydrate fields — any two
records that agree on fat, saturated fat, sugars, salt, sodium, fiber and
protein get the same score. -/
theorem getHealthScore_ignores_energy_carbs (n₁ n₂ : NutrientFacts)
    (hfat : n₁.fat_100g = n₂.fat_100g)
    (hsat : n₁.saturated_fat_100g = n₂.saturated_fat_100g)
    (hsug : n₁.sugars_100g = n₂.sugars_100g)
    (hsalt : n₁.salt_100g = n₂.salt_100g)
    (hsod : n₁.sodium_100g = n₂.sodium_100g)
    (hfib : n₁.fiber_100g = n₂.fiber_100g)
    (hpro : n₁.proteins_100g = n₂.proteins_100g) :
    getHealthScore n₁ = getHealthScore n₂ := by
  unfold getHealthScore
  rw [hfat, hsat, hsug, hsalt, hsod, hfib, hpro]

/-- Witness for C10 at two records that differ only in energy and
carbohydrates. -/
theorem getHealthScore_ignores_energy_carbs_witness :
    getHealthScore { energy_100g := some 500, carbohydrates_100g := some 30, fat_100g := some 25 }
      = getHealthScore { energy_100g := some 900, fat_100g := some 25 } :=
  getHealthScore_ignores_energy_carbs _ _ rfl rfl rfl rfl rfl rfl rfl

/-- C9: barcode validation is idempotent under normalization — validating a
string gives the same verdict as validating its digits-only normalization. -/
theorem validateBarcode_idem_normalize (s : String) :
    validateBarcode s = validateBarcode (normalizeBarcode s) := by
  simp only [validateBarcode, normalizeBarcode_idem]

/-- C6: the band helpers are total on every rational score and classify with
inclusive lower bounds: at least 80 gives Excellent with the green band class,
60 to just below 80 gives Good, 40 to just below 60 gives Fair, and anything
below 40 gives Poor. -/
theorem scoreBand_thresholds (s : ℚ) :
    (80 ≤ s → getHealthScoreText s = "Excellent"
      ∧ getHealthScoreClass s = "health-score-excellent")
    ∧ (60 ≤ s → s < 80 → getHealthScoreText s = "Good"
      ∧ getHealthScoreClass s = "health-score-good")
    ∧ (40 ≤ s → s < 60 → getHealthScoreText s = "Fair"
      ∧ getHealthScoreClass s = "health-score-fair")
    ∧ (s < 40 → getHealthScoreText s = "Poor"
      ∧ getHealthScoreClass s = "health-score-poor") := by
  unfold getHealthScoreText getHealthScoreClass
  refine ⟨fun h => ?_, fun h h8 => ?_, fun h h6 => ?_, fun h => ?_⟩ <;>
    split_ifs <;> first | exact ⟨rfl, rfl⟩ | linarith

/-- Witness for C6 at the band boundaries 80 and 60. -/
theorem scoreBand_thresholds_witness :
    (getHealthScoreText 80 = "Excellent"
      ∧ getHealthScoreClass 80 = "health-score-excellent")
    ∧ (getHealthScoreText 60 = "Good"
      ∧ getHealthScoreClass 60 = "health-score-good") :=
  ⟨(scoreBand_thresholds 80).1 (by norm_num),
   (scoreBand_thresholds 60).2.1 (by norm_num) (by norm_num)⟩

/-- C7: the grade color table maps A to green, B to lime, C to yellow, D to
orange, E to red, and every other string to the gray default. -/
theorem gradeColor_table (g : String) :
    getGradeColor "A" = "bg-green-500"
    ∧ getGradeColor "B" = "bg-lime-500"
    ∧ getGradeColor "C" = "bg-yellow-500"
    ∧ getGradeColor "D" = "bg-orange-500"
    ∧ getGradeColor "E" = "bg-red-500"
    ∧ (g ≠ "A" → g ≠ "B" → g ≠ "C" → g ≠ "D" → g ≠ "E" →
        getGradeColor g = "bg-gray-500") := by
  refine ⟨by decide, by decide, by decide, by decide, by decide,
    fun hA hB hC hD hE => ?_⟩
  simp [getGradeColor, hA, hB, hC, hD, hE]

/-- Witness for C7 at the unrecognized grade Z, which falls to gray. -/
theorem gradeColor_table_witness : getGradeColor "Z" = "bg-gray-500" :=
  (gradeColor_table "Z").2.2.2.2.2 (by decide) (by decide) (by decide)
    (by decide) (by decide)

lemma specTerm_mono {v₁ v₂ : ℚ} (h : v₁ ≤ v₂) (t : ℚ) (w : ℤ) (hw : 0 ≤ w) :
    specTerm (some v₁) t w ≤ specTerm (some v₂) t w := by
  by_cases h₁ : t < v₁
  · have h₂ : t < v₂ := lt_of_lt_of_le h₁ h
    simp [specTerm, h₁, h₂]
  · by_cases h₂ : t < v₂
    · simp [specTerm, h₁, h₂, hw]
    · simp [specTerm, h₁, h₂]

/-- C8: with all other fields fixed, raising a penalty field never raises the
score and raising a bonus field never lowers it — the score is monotone
non-increasing in fat, saturated fat, sugars, salt and sodium, and monotone
non-decreasing in fiber and protein. -/
theorem getHealthScore_monotone (n : NutrientFacts) (v₁ v₂ : ℚ) (h : v₁ ≤ v₂) :
    (getHealthScore { n with fat_100g := some v₂ }
      ≤ getHealthScore { n with fat_100g := some v₁ })
    ∧ (getHealthScore { n with saturated_fat_100g := some v₂ }
      ≤ getHealthScore { n with saturated_fat_100g := some v₁ })
    ∧ (getHealthScore { n with sugars_100g := some v₂ }
      ≤ getHealthScore { n with sugars_100g := some v₁ })
    ∧ (getHealthScore { n with salt_100g := some v₂ }
      ≤ getHealthScore { n with salt_100g := some v₁ })
    ∧ (getHealthScore { n with sodium_100g := some v₂ }
      ≤ getHealthScore { n with sodium_100g := some v₁ })
    ∧ (getHealthScore { n with fiber_100g := some v₁ }
      ≤ getHealthScore { n with fiber_100g := some v₂ })
    ∧ (getHealthScore { n with proteins_100g := some v₁ }
      ≤ getHealthScore { n with proteins_100g := some v₂ }) := by
  have hfat := specTerm_mono h 20 15 (by norm_num)
  have hsat := specTerm_mono h 5 10 (by norm_num)
  have hsug := specTerm_mono h 15 20 (by norm_num)
  have hsalt := specTerm_mono h (3/2) 15 (by norm_num)
  have hsod := specTerm_mono h 600 10 (by norm_num)
  have hfib := specTerm_mono h 3 10 (by norm_num)
  have hpro := specTerm_mono h 10 5 (by norm_num)
  refine ⟨?_, ?_, ?_, ?_, ?_, ?_, ?_⟩ <;>
    (rw [getHealthScore_eq_formula, getHealthScore_eq_formula]
     dsimp only [scoreFormula]) <;> omega

/-- Witness for C8 on the empty record with fat raised from 0 to 25. -/
theorem getHealthScore_monotone_witness :
    getHealthScore { emptyFacts with fat_100g := some 25 }
      ≤ getHealthScore { emptyFacts with fat_100g := some 0 } :=
  (getHealthScore_monotone emptyFacts 0 25 (by norm_num)).1

/-- C2: when the normalized input has exactly 13 digits, validation succeeds
iff the digit at index 12 equals `(10 - S % 10) % 10` for the EAN-13 weighted
sum S of the first 12 digits (weight 1 at even 0-based indices, 3 at odd). -/
theorem validateBarcode_ean13_iff (s : String)
    (h : (normalizeBarcode s).length = 13) :
    validateBarcode s = true ↔
      (barcodeDigits s).getD 12 0
        = (10 - ean13SpecSum (barcodeDigits s) % 10) % 10 := by
  simp only [validateBarcode, h]
  rw [if_neg (by norm_num), if_pos trivial]
  simp only [validateEAN13, h]
  rw [if_neg (by norm_num)]
  simp only [barcodeDigits]
  rw [ean13_fold_spec, getD_map_digitVal, beq_iff_eq]
  exact eq_comm

/-- Witness for C2: the 13-digit barcode 4006381333931 has a correct EAN-13
check digit and validates. -/
theorem validateBarcode_ean13_iff_witness :
    validateBarcode "4006381333931" = true :=
  (validateBarcode_ean13_iff "4006381333931" (by decide)).mpr (by decide)

/-- C3: when the normalized input has exactly 12 digits, validation succeeds
iff the digit at index 11 equals `(10 - S % 10) % 10` for the UPC-A weighted
sum S of the first 11 digits (weight 3 at even 0-based indices, 1 at odd). -/
theorem validateBarcode_upc_iff (s : String)
    (h : (normalizeBarcode s).length = 12) :
    validateBarcode s = true ↔
      (barcodeDigits s).getD 11 0
        = (10 - upcSpecSum (barcodeDigits s) % 10) % 10 := by
  simp only [validateBarcode, h]
  rw [if_neg (by norm_num), if_neg (by norm_num), if_pos trivial]
  simp only [validateUPC, h]
  rw [if_neg (by norm_num)]
  simp only [barcodeDigits]
  rw [upc_fold_spec, getD_map_digitVal, beq_iff_eq]
  exact eq_comm

/-- Witness for C3: the 12-digit barcode 036000291452 has a correct UPC-A
check digit and validates. -/
theorem validateBarcode_upc_iff_witness :
    validateBarcode "036000291452" = true :=
  (validateBarcode_upc_iff "036000291452" (by decide)).mpr (by decide)

/-- C4: validation is total and decided by the normalized length — any length
outside [8,14] (including the empty normalization of an all-non-digit input)
is rejected, and any length inside [8,14] other than 12 and 13 is accepted. -/
theorem validateBarcode_length_cases (s : String) :
    ((normalizeBarcode s).length < 8 ∨ 14 < (normalizeBarcode s).length →
      validateBarcode s = false)
    ∧ (8 ≤ (normalizeBarcode s).length → (normalizeBarcode s).length ≤ 14 →
      (normalizeBarcode s).length ≠ 12 → (normalizeBarcode s).length ≠ 13 →
      validateBarcode s = true) := by
  constructor
  · intro h
    simp only [validateBarcode]
    rw [if_pos h]
  · intro h8 h14 h12 h13
    simp only [validateBarcode]
    rw [if_neg (by omega :
        ¬((normalizeBarcode s).length < 8 ∨ 14 < (normalizeBarcode s).length)),
      if_neg h13, if_neg h12]
    rw [Bool.and_eq_true, decide_eq_true_eq]
    constructor
    · intro hnil
      have hlen : (normalizeBarcode s).length = (normalizeBarcode s).toList.length := rfl
      rw [hnil] at hlen
      simp at hlen
      omega
    · rw [List.all_eq_true]
      intro c hc
      exact (List.mem_filter.mp hc).2

/-- Witness for C4: a 3-digit input and an all-punctuation input are rejected,
and an input that normalizes to 8 digits is accepted with no checksum. -/
theorem validateBarcode_length_cases_witness :
    validateBarcode "123" = false ∧ validateBarcode "!!!" = false
    ∧ validateBarcode "abc12345678" = true :=
  ⟨(validateBarcode_length_cases "123").1 (by decide),
   (validateBarcode_length_cases "!!!").1 (by decide),
   (validateBarcode_length_cases "abc12345678").2 (by decide) (by decide)
     (by decide) (by decide)⟩
